import Mathlib

/-!
Verification of the extraction-and-comparison scoring core of the
Math-Verify repository (`src/math_evaluator/tasks.py`).

The file embeds `sample_level_fn`, the closure produced by
`multilingual_extractive_match_metric`, as a pure Lean function.  The
collaborator modules `.grader`, `.parser` and `.utils` are not part of the
source tree, so their behaviour is modelled from the specification
(`spec.md` sections 4.1-4.3): extraction is an opaque pure function carried
in the configuration, the pairwise grader follows the decision procedure of
spec section 4.3, and the wall-clock timeout around the diagnostic
stringification step is represented by an explicit outcome parameter
(`renderExn`): `none` means the step completed within its budget, `some e`
means it was aborted by the exception `e` (a timeout or any other error).
Scores are modelled as exact rationals; the per-prediction scores `0.0` and
`1.0` and the tolerances `10^(-p)` are all exactly representable.
-/

set_option autoImplicit false

namespace MathEvaluator

/-- Modelled from the spec (section 3, ExtractedExpression): the result of
successfully matching and normalizing a substring — a symbolic or numeric
value — or, under the `first_match` fallback, the raw unparsed text of a
match whose normalization failed. -/
inductive Extracted where
  | num (q : ℚ)
  | sym (s : String)
  | raw (s : String)
deriving DecidableEq, Repr

/-- Modelled from the spec: the textual rendering of an extracted value, as
produced by Python `str` on the value (used by the diagnostic
stringification step and by the raw-string comparison rule of spec 4.3). -/
def render : Extracted → String
  | .num q => toString q
  | .sym s => s
  | .raw s => s

/-- Whitespace/formatting normalization used by rule 3 of spec section 4.3
("exact string equality after whitespace/formatting normalization"). -/
def normWS (s : String) : String :=
  String.mk (s.data.filter (fun c => !c.isWhitespace))

/-- The numeric tolerance `10^(-precision)` of spec section 4.3. -/
def tolQ (precision : ℕ) : ℚ := 1 / 10 ^ precision

/-- Modelled from the spec (section 4.3, Equivalence Grader): the ordered
decision procedure deciding whether one extracted gold value and one
extracted prediction value denote the same mathematical object.
Rule 1: both exact symbolic forms, identical after simplification
(symbolic values are modelled as already-simplified normal forms, compared
for equality).  Rule 2: both numeric, relative tolerance
`|gold - pred| ≤ 10^(-precision) * max 1 |gold|`.  Rule 3: one side a raw
unparsed string, the other numeric/symbolic: exact string equality after
whitespace normalization.  Rule 4: otherwise not equivalent. -/
def equivalent (gold pred : Extracted) (precision : ℕ) : Bool :=
  match gold, pred with
  | .sym a, .sym b => a == b
  | .num a, .num b => decide (|a - b| ≤ tolQ precision * max 1 |a|)
  | .raw a, .num b => normWS a == normWS (render (.num b))
  | .raw a, .sym b => normWS a == normWS (render (.sym b))
  | .num a, .raw b => normWS b == normWS (render (.num a))
  | .sym a, .raw b => normWS b == normWS (render (.sym a))
  | _, _ => false

/-- Modelled from the spec (section 4.4 step 4, with the pairwise grader of
4.3): `compare_gold_target` from the missing `.grader` module, called by
`sample_level_fn` on one gold string's candidate list and one prediction
string's candidate list; true iff some gold candidate is equivalent to some
prediction candidate. -/
def compare_gold_target (gold pred : List Extracted) (precision : ℕ) : Bool :=
  gold.any fun g => pred.any fun p => equivalent g p precision

/-- The configuration bundle fixed at metric-construction time
(`multilingual_extractive_match_metric`'s arguments).  The extraction
targets together with `get_extraction_regexes` and
`extract_target_from_pred` (missing `.parser` module) compose to one pure
function from a text blob to its candidate list (spec section 4.2
guarantees purity and determinism), so the configuration carries that
composed function directly, one for the gold side and one for the
prediction side. -/
structure Config where
  extractGold : String → List Extracted
  extractPred : String → List Extracted
  aggregation : List ℚ → Option ℚ
  precision : ℕ

/-- Python's builtin `max` on a list of scores, the default
`aggregation_function`: raises `ValueError` (modelled as `none`) on an
empty list, otherwise the greatest element. -/
def pyMax (l : List ℚ) : Option ℚ :=
  match l with
  | [] => none
  | x :: xs => some (xs.foldl max x)

/-- The errors `sample_level_fn` can raise: the `ValueError` for a gold
with no extracted candidates (the spec's `MissingGoldExtractionError`),
and an error escaping the aggregation function (Python `max` on `[]`). -/
inductive ScoreError where
  | missingGoldExtraction (golds predictions : List String)
  | aggregationError
deriving DecidableEq, Repr

/-- The shape of the diagnostic component returned by `sample_level_fn`:
the initial value `str_preds = []` (an empty Python list) or the pair of
string lists produced by the stringification step. -/
inductive StrPreds where
  | empty
  | pair (golds predictions : List String)
deriving DecidableEq, Repr

/-- The warning logged when no prediction yields a candidate
(`tasks.py` lines 81-84). -/
def predWarning (golds predictions : List String) : String :=
  "We did not manage to extract a prediction in the correct format. Gold: "
    ++ toString golds ++ ", Pred: " ++ toString predictions

/-- The warning logged when the stringification step raises
(`tasks.py` line 91). -/
def renderWarning : String :=
  "Timeout when adding extracted predictions and golds to specific"

/-- The wall-clock budget, in seconds, of the `@timeout(2)` decorator on
`get_str_preds_with_timeout` (`tasks.py` line 59). -/
def renderTimeoutSeconds : ℕ := 2

/-- Embedding of `get_str_preds_with_timeout` (`tasks.py` lines 59-66)
together with its `@timeout(2)` wall-clock guard: `renderExn = none` means
the rendering completed within the budget and returns the flattened
stringified golds and predictions; `renderExn = some e` means it was
aborted by the exception `e` (timeout or otherwise). -/
def get_str_preds_with_timeout (renderExn : Option String)
    (extracted_predictions extracted_golds : List (List Extracted)) :
    Except String (List String × List String) :=
  match renderExn with
  | some e => .error e
  | none =>
    .ok (extracted_golds.flatten.map render, extracted_predictions.flatten.map render)

/-- The value returned by `sample_level_fn` on success: the scalar score,
the diagnostic component, and the warnings logged along the way (logging,
the only side effect, is made explicit as a writer component). -/
structure ScoreResult where
  score : ℚ
  strPreds : StrPreds
  warnings : List String
deriving DecidableEq, Repr

/-- Embedding of `sample_level_fn` (`tasks.py` lines 68-101).  Extracts
candidates for every prediction and gold, raises on a gold with no
candidates, warns when every prediction has no candidates, attempts the
diagnostic stringification under its timeout (absorbing any exception into
a warning and leaving `str_preds` as the empty list), scores each
prediction `1.0` or `0.0` against the gold candidate sets and aggregates
with the configured aggregation function. -/
def sample_level_fn (cfg : Config) (renderExn : Option String)
    (golds predictions : List String) : Except ScoreError ScoreResult :=
  let extracted_predictions := predictions.map cfg.extractPred
  let extracted_golds := golds.map cfg.extractGold
  if extracted_golds.any (fun g => g.isEmpty) then
    .error (.missingGoldExtraction golds predictions)
  else
    let warns1 :=
      if extracted_predictions.all (fun p => p.isEmpty) then
        [predWarning golds predictions]
      else []
    let rendered :=
      match get_str_preds_with_timeout renderExn extracted_predictions extracted_golds with
      | .ok (g, p) => (StrPreds.pair g p, ([] : List String))
      | .error _ => (StrPreds.empty, [renderWarning])
    let perPred := extracted_predictions.map fun p =>
      if extracted_golds.any (fun g => compare_gold_target g p cfg.precision)
      then (1 : ℚ) else 0
    match cfg.aggregation perPred with
    | none => .error .aggregationError
    | some s => .ok ⟨s, rendered.1, warns1 ++ rendered.2⟩

/-- A simple concrete extractor used to instantiate the opaque extraction
function in concrete runs: a non-empty string yields its own (simplified)
symbolic form as its sole candidate, the empty string yields no
candidate. -/
def symExtractor (s : String) : List Extracted :=
  if s.isEmpty then [] else [Extracted.sym s]

/-- A concrete default configuration for concrete runs: symbolic
extraction on both sides, Python `max` aggregation, precision 6 (the
default of `multilingual_extractive_match_metric`). -/
def cfgS : Config := ⟨symExtractor, symExtractor, pyMax, 6⟩

end MathEvaluator

namespace MathEvaluator

/-! ## Helper lemmas -/

/-- Extension of the numeric rule of `equivalent` to the proposition it
decides. -/
theorem equivalent_num_iff (a b : ℚ) (p : ℕ) :
    equivalent (.num a) (.num b) p = true ↔ |a - b| ≤ tolQ p * max 1 |a| := by
  simp [equivalent]

/-- Aborting the rendering step only empties the diagnostic component and
appends the timeout warning; the scalar score and the error cases are
untouched. -/
theorem render_effect (cfg : Config) (e : String) (golds predictions : List String) :
    sample_level_fn cfg (some e) golds predictions
      = Except.map (fun r => ⟨r.score, StrPreds.empty, r.warnings ++ [renderWarning]⟩)
          (sample_level_fn cfg none golds predictions) := by
  simp only [sample_level_fn, get_str_preds_with_timeout]
  split
  · rfl
  · cases hagg : cfg.aggregation ((predictions.map cfg.extractPred).map fun p =>
      if (golds.map cfg.extractGold).any (fun g => compare_gold_target g p cfg.precision)
      then (1:ℚ) else 0) <;>
    simp [hagg, Except.map]

/-- A left fold of `max` over scores in `{0, 1}` starting from a score in
`{0, 1}` stays in `{0, 1}`. -/
theorem foldl_max_01 (l : List ℚ) (acc : ℚ) (hacc : acc = 0 ∨ acc = 1)
    (h : ∀ y ∈ l, y = 0 ∨ y = 1) : l.foldl max acc = 0 ∨ l.foldl max acc = 1 := by
  induction l generalizing acc with
  | nil => simpa using hacc
  | cons x xs ih =>
    simp only [List.foldl_cons]
    apply ih
    · rcases max_choice acc x with h' | h' <;> rw [h']
      · exact hacc
      · exact h x (by simp)
    · intro y hy
      exact h y (by simp [hy])

/-- Python `max` of a list of scores in `{0, 1}` is in `{0, 1}`. -/
theorem pyMax_01 (l : List ℚ) (h : ∀ y ∈ l, y = 0 ∨ y = 1) (r : ℚ)
    (hr : pyMax l = some r) : r = 0 ∨ r = 1 := by
  cases l with
  | nil => simp [pyMax] at hr
  | cons x xs =>
    simp only [pyMax, Option.some.injEq] at hr
    subst hr
    exact foldl_max_01 xs x (h x (by simp)) (fun y hy => h y (by simp [hy]))

/-- A left fold of `max` over zeros starting from zero is zero. -/
theorem foldl_max_zero (l : List ℚ) (acc : ℚ) (hacc : acc = 0)
    (h : ∀ y ∈ l, y = 0) : l.foldl max acc = 0 := by
  induction l generalizing acc with
  | nil => simpa using hacc
  | cons x xs ih =>
    simp only [List.foldl_cons]
    apply ih
    · rcases max_choice acc x with h' | h' <;> rw [h']
      · exact hacc
      · exact h x (by simp)
    · intro y hy
      exact h y (by simp [hy])

/-- Python `max` of a non-empty list of zeros is zero. -/
theorem pyMax_zero (l : List ℚ) (hne : l ≠ []) (h : ∀ y ∈ l, y = 0) :
    pyMax l = some 0 := by
  cases l with
  | nil => exact absurd rfl hne
  | cons x xs =>
    simp only [pyMax, Option.some.injEq]
    exact foldl_max_zero xs x (h x (by simp)) (fun y hy => h y (by simp [hy]))

end MathEvaluator

namespace MathEvaluator

/-! ## Claim theorems -/

/-- Claim C1: whenever `sample_level_fn` returns on non-empty gold and
prediction lists, the returned scalar is the configured aggregation
function applied to the list of per-prediction scores in input order,
where a prediction scores `1.0` exactly when some candidate extracted from
it is equivalent to some candidate extracted from some gold, and `0.0`
otherwise. -/
theorem score_aggregates_per_prediction_scores (cfg : Config)
    (renderExn : Option String) (golds predictions : List String)
    (res : ScoreResult) (_hg : golds ≠ []) (_hp : predictions ≠ [])
    (h : sample_level_fn cfg renderExn golds predictions = .ok res) :
    cfg.aggregation (predictions.map fun pr =>
        if golds.any (fun gold => (cfg.extractGold gold).any fun gc =>
            (cfg.extractPred pr).any fun pc => equivalent gc pc cfg.precision)
        then (1:ℚ) else 0) = some res.score := by
  simp only [sample_level_fn, get_str_preds_with_timeout] at h
  split at h
  · exact absurd h (by simp)
  · split at h
    · exact absurd h (by simp)
    · rename_i s hagg
      cases h
      simpa [List.map_map, List.any_map, Function.comp, compare_gold_target] using hagg

/-- Witness for C1: one gold `"2"` and one prediction `"2"` under the
concrete symbolic configuration; the run returns score `1` and the
aggregation of the per-prediction scores is exactly that scalar. -/
theorem score_aggregates_per_prediction_scores_witness :
    cfgS.aggregation ((["2"] : List String).map fun pr =>
        if (["2"] : List String).any (fun gold => (cfgS.extractGold gold).any fun gc =>
            (cfgS.extractPred pr).any fun pc => equivalent gc pc cfgS.precision)
        then (1:ℚ) else 0)
      = some (ScoreResult.mk 1 (.pair ["2"] ["2"]) []).score :=
  score_aggregates_per_prediction_scores cfgS none ["2"] ["2"]
    ⟨1, .pair ["2"] ["2"], []⟩ (by decide) (by decide) rfl

/-- Claim C2: if any gold string yields zero extracted candidates,
`sample_level_fn` fails with the missing-gold-extraction error (the code's
`ValueError`, the spec's `MissingGoldExtractionError`), which propagates to
the caller, and never returns a numeric value. -/
theorem score_fails_on_missing_gold_extraction (cfg : Config)
    (renderExn : Option String) (golds predictions : List String)
    (h : ∃ g ∈ golds, cfg.extractGold g = []) :
    sample_level_fn cfg renderExn golds predictions
      = .error (.missingGoldExtraction golds predictions) := by
  obtain ⟨g, hg, he⟩ := h
  simp only [sample_level_fn]
  rw [if_pos]
  simp only [List.any_eq_true, List.mem_map]
  exact ⟨cfg.extractGold g, ⟨g, hg, rfl⟩, by simp [he]⟩

/-- Witness for C2: the empty gold string yields no candidate under the
concrete configuration, and the run fails with the missing-gold error. -/
theorem score_fails_on_missing_gold_extraction_witness :
    sample_level_fn cfgS none [""] ["2"]
      = .error (.missingGoldExtraction [""] ["2"]) :=
  score_fails_on_missing_gold_extraction cfgS none [""] ["2"]
    ⟨"", by simp, rfl⟩

/-- Claim C3: on a non-empty prediction list in which every prediction
yields zero candidates, while every gold yields at least one, the run with
the default `max` aggregation succeeds (never raises), returns the scalar
`0.0`, and logs the prediction-extraction warning. -/
theorem score_zero_when_no_prediction_extracted (cfg : Config)
    (renderExn : Option String) (golds predictions : List String)
    (hp : predictions ≠ [])
    (hpe : ∀ pr ∈ predictions, cfg.extractPred pr = [])
    (hge : ∀ g ∈ golds, cfg.extractGold g ≠ [])
    (hagg : cfg.aggregation = pyMax) :
    (sample_level_fn cfg renderExn golds predictions).isOk = true
      ∧ ∀ res, sample_level_fn cfg renderExn golds predictions = .ok res →
          res.score = 0 ∧ predWarning golds predictions ∈ res.warnings := by
  have hcond : ((golds.map cfg.extractGold).any fun g => g.isEmpty) = false := by
    rw [List.any_eq_false]
    intro x hx
    rw [List.mem_map] at hx
    obtain ⟨g, hg, rfl⟩ := hx
    simpa using hge g hg
  have hzero : ∀ y ∈ (predictions.map cfg.extractPred).map (fun p =>
      if (golds.map cfg.extractGold).any (fun g => compare_gold_target g p cfg.precision)
      then (1:ℚ) else 0), y = 0 := by
    intro y hy
    rw [List.mem_map] at hy
    obtain ⟨p, hpmem, rfl⟩ := hy
    rw [List.mem_map] at hpmem
    obtain ⟨pr, hprmem, rfl⟩ := hpmem
    rw [hpe pr hprmem]
    simp [compare_gold_target]
  have hne : (predictions.map cfg.extractPred).map (fun p =>
      if (golds.map cfg.extractGold).any (fun g => compare_gold_target g p cfg.precision)
      then (1:ℚ) else 0) ≠ [] := by
    simpa using hp
  have hsome := pyMax_zero _ hne hzero
  have hwarns : (if ((predictions.map cfg.extractPred).all fun p => p.isEmpty) = true
      then [predWarning golds predictions] else ([] : List String))
      = [predWarning golds predictions] := by
    have hall : ((predictions.map cfg.extractPred).all fun p => p.isEmpty) = true := by
      rw [List.all_eq_true]
      intro x hx
      rw [List.mem_map] at hx
      obtain ⟨pr, hprmem, rfl⟩ := hx
      simp [hpe pr hprmem]
    rw [hall]
    rfl
  have heq : ∀ res, sample_level_fn cfg renderExn golds predictions = .ok res →
      res.score = 0 ∧ predWarning golds predictions ∈ res.warnings := by
    intro res h
    simp only [sample_level_fn, get_str_preds_with_timeout, hagg, hsome, hcond,
      Bool.false_eq_true, if_false, hwarns] at h
    cases renderExn with
    | none =>
      cases h
      exact ⟨rfl, by simp⟩
    | some e =>
      cases h
      exact ⟨rfl, by simp⟩
  refine ⟨?_, heq⟩
  simp only [sample_level_fn, get_str_preds_with_timeout, hagg, hsome, hcond,
    Bool.false_eq_true, if_false, hwarns]
  cases renderExn <;> rfl

/-- Witness for C3: gold `"2"` extracts, the single prediction `""` does
not; the run succeeds with score `0` and the warning logged. -/
theorem score_zero_when_no_prediction_extracted_witness :
    (sample_level_fn cfgS none ["2"] [""]).isOk = true
      ∧ (ScoreResult.mk 0 (.pair ["2"] []) [predWarning ["2"] [""]]).score = 0
      ∧ predWarning ["2"] [""]
          ∈ (ScoreResult.mk 0 (.pair ["2"] []) [predWarning ["2"] [""]]).warnings :=
  ⟨(score_zero_when_no_prediction_extracted cfgS none ["2"] [""] (by decide)
      (by decide) (by decide) rfl).1,
   (score_zero_when_no_prediction_extracted cfgS none ["2"] [""] (by decide)
      (by decide) (by decide) rfl).2 _ rfl⟩

end MathEvaluator

namespace MathEvaluator

/-- Counterexample for C4: when the diagnostic rendering is aborted, the
diagnostic component of the returned value is the initial empty Python
list (`StrPreds.empty`, the code's `str_preds = []`), which is not a pair
of empty diagnostic lists. -/
theorem diag_timeout_empty_list_counterexample :
    sample_level_fn cfgS (some "TimeoutError") ["2"] ["2"]
        = .ok ⟨1, StrPreds.empty, [renderWarning]⟩
      ∧ StrPreds.empty ≠ StrPreds.pair [] [] :=
  ⟨rfl, by decide⟩

/-- Claim C4 (amended): the diagnostic rendering runs under a 2-second
wall-clock budget; whenever it is aborted, the run that still returns has
the single empty list (not a pair of empty lists) as its diagnostic
component, logs the timeout warning, and its scalar score equals the one
the run with successful rendering produces. -/
theorem diag_timeout_keeps_score (cfg : Config) (e : String)
    (golds predictions : List String) (res : ScoreResult)
    (h : sample_level_fn cfg (some e) golds predictions = .ok res) :
    renderTimeoutSeconds = 2 ∧ res.strPreds = StrPreds.empty
      ∧ renderWarning ∈ res.warnings
      ∧ Except.map ScoreResult.score (sample_level_fn cfg none golds predictions)
          = .ok res.score := by
  rw [render_effect] at h
  cases hn : sample_level_fn cfg none golds predictions with
  | error err =>
    rw [hn] at h
    exact absurd h (by simp [Except.map])
  | ok r =>
    rw [hn] at h
    simp only [Except.map, Except.ok.injEq] at h
    subst h
    exact ⟨rfl, rfl, by simp, by simp [Except.map]⟩

/-- Witness for C4: a concrete aborted-rendering run returning score `1`
whose successful-rendering counterpart has the same scalar. -/
theorem diag_timeout_keeps_score_witness :
    renderTimeoutSeconds = 2
      ∧ (⟨1, StrPreds.empty, [renderWarning]⟩ : ScoreResult).strPreds = StrPreds.empty
      ∧ renderWarning ∈ (⟨1, StrPreds.empty, [renderWarning]⟩ : ScoreResult).warnings
      ∧ Except.map ScoreResult.score (sample_level_fn cfgS none ["2"] ["2"])
          = .ok (⟨1, StrPreds.empty, [renderWarning]⟩ : ScoreResult).score :=
  diag_timeout_keeps_score cfgS "TimeoutError" ["2"] ["2"]
    ⟨1, StrPreds.empty, [renderWarning]⟩ rfl

/-- Counterexample for C5: with precision 2 the values `1.006` and `1.0`
are equivalent under the grader's relative-tolerance rule
(`|1.006 - 1.0| = 0.006 ≤ 10^(-2) * max 1 |1.006|`), contradicting the
claim that they are not. -/
theorem numeric_boundary_counterexample :
    equivalent (.num 1.006) (.num 1.0) 2 = true := by
  rw [equivalent_num_iff, tolQ,
    abs_of_nonneg (by norm_num : (0:ℚ) ≤ 1.006 - 1.0),
    abs_of_nonneg (by norm_num : (0:ℚ) ≤ (1.006:ℚ)),
    max_eq_right (by norm_num : (1:ℚ) ≤ 1.006)]
  norm_num

/-- Claim C5 (amended): for numeric values the grader returns true iff
`|gold - pred| ≤ 10^(-p) * max 1 |gold|`, which is the absolute tolerance
`10^(-p)` when the gold value is zero; with precision 2 the pair `1.004`
and `1.0` is equivalent, and so is the pair `1.006` and `1.0` (the
formula's tolerance at precision 2 is `0.01`, not `0.005`). -/
theorem numeric_tolerance_rule :
    (∀ a b : ℚ, ∀ p : ℕ,
        equivalent (.num a) (.num b) p = true ↔ |a - b| ≤ tolQ p * max 1 |a|)
      ∧ (∀ b : ℚ, ∀ p : ℕ,
          equivalent (.num 0) (.num b) p = true ↔ |b| ≤ tolQ p)
      ∧ equivalent (.num 1.004) (.num 1.0) 2 = true
      ∧ equivalent (.num 1.006) (.num 1.0) 2 = true := by
  refine ⟨equivalent_num_iff, ?_, ?_, ?_⟩
  · intro b p
    rw [equivalent_num_iff]
    norm_num
  · rw [equivalent_num_iff, tolQ,
      abs_of_nonneg (by norm_num : (0:ℚ) ≤ 1.004 - 1.0),
      abs_of_nonneg (by norm_num : (0:ℚ) ≤ (1.004:ℚ)),
      max_eq_right (by norm_num : (1:ℚ) ≤ 1.004)]
    norm_num
  · rw [equivalent_num_iff, tolQ,
      abs_of_nonneg (by norm_num : (0:ℚ) ≤ 1.006 - 1.0),
      abs_of_nonneg (by norm_num : (0:ℚ) ≤ (1.006:ℚ)),
      max_eq_right (by norm_num : (1:ℚ) ≤ 1.006)]
    norm_num

/-- Counterexample for C6: the relative-tolerance rule is not symmetric;
at precision 2, `100` (gold) accepts `99` (tolerance `0.01 * 100 = 1`),
but `99` (gold) rejects `100` (tolerance `0.01 * 99 = 0.99 < 1`). -/
theorem numeric_rule_asymmetry_counterexample :
    equivalent (.num 100) (.num 99) 2 = true
      ∧ equivalent (.num 99) (.num 100) 2 = false := by
  constructor
  · rw [equivalent_num_iff, tolQ,
      abs_of_nonneg (by norm_num : (0:ℚ) ≤ (100:ℚ) - 99),
      abs_of_nonneg (by norm_num : (0:ℚ) ≤ (100:ℚ)),
      max_eq_right (by norm_num : (1:ℚ) ≤ 100)]
    norm_num
  · rw [Bool.eq_false_iff]
    intro ht
    have h := (equivalent_num_iff 99 100 2).mp ht
    rw [tolQ, abs_of_nonpos (by norm_num : (99:ℚ) - 100 ≤ 0),
      abs_of_nonneg (by norm_num : (0:ℚ) ≤ (99:ℚ)),
      max_eq_right (by norm_num : (1:ℚ) ≤ 99)] at h
    norm_num at h

/-- Claim C6 (amended): the numeric-tolerance rule is symmetric in the two
values exactly on the pairs whose relative scales agree, i.e. whenever
`max 1 |a| = max 1 |b|` (in particular whenever both magnitudes are at
most 1); in general the rule is asymmetric because the tolerance is
scaled by the gold side only. -/
theorem numeric_rule_symmetric_of_equal_scale (a b : ℚ) (p : ℕ)
    (h : max 1 |a| = max 1 |b|) :
    equivalent (.num a) (.num b) p = equivalent (.num b) (.num a) p := by
  simp only [equivalent]
  rw [decide_eq_decide, abs_sub_comm, h]

/-- Witness for C6: the values `1/2` and `-1/2` share the scale
`max 1 |·| = 1`, and the rule is symmetric on them at precision 3. -/
theorem numeric_rule_symmetric_of_equal_scale_witness :
    equivalent (.num (1/2)) (.num (-1/2)) 3
      = equivalent (.num (-1/2)) (.num (1/2)) 3 :=
  numeric_rule_symmetric_of_equal_scale (1/2) (-1/2) 3 (by norm_num)

end MathEvaluator

namespace MathEvaluator

/-- Claim C7: under the default `max` aggregation, every scalar that
`sample_level_fn` returns on a non-empty prediction list is `0.0` or
`1.0`, hence lies in `[0.0, 1.0]`, because every per-prediction score is
`0.0` or `1.0`. -/
theorem default_score_in_unit_range (cfg : Config) (renderExn : Option String)
    (golds predictions : List String) (res : ScoreResult)
    (_hp : predictions ≠ [])
    (hagg : cfg.aggregation = pyMax)
    (h : sample_level_fn cfg renderExn golds predictions = .ok res) :
    res.score = 0 ∨ res.score = 1 := by
  simp only [sample_level_fn, get_str_preds_with_timeout] at h
  split at h
  · exact absurd h (by simp)
  · split at h
    · exact absurd h (by simp)
    · rename_i s hs
      cases h
      rw [hagg] at hs
      apply pyMax_01 _ _ s hs
      intro y hy
      rw [List.mem_map] at hy
      obtain ⟨p, _, hpy⟩ := hy
      split at hpy <;> simp [← hpy]

/-- Witness for C7: the concrete default-configuration run on gold `"2"`
and prediction `"2"` returns score `1`, which is `0` or `1`. -/
theorem default_score_in_unit_range_witness :
    (ScoreResult.mk 1 (.pair ["2"] ["2"]) []).score = 0
      ∨ (ScoreResult.mk 1 (.pair ["2"] ["2"]) []).score = 1 :=
  default_score_in_unit_range cfgS none ["2"] ["2"]
    ⟨1, .pair ["2"] ["2"], []⟩ (by decide) rfl rfl

/-- Claim C8: `sample_level_fn` is deterministic on its inputs: two
invocations with equal gold and prediction lists under the same
configuration return equal scalar results, whatever the outcome of the
wall-clock-bounded rendering step in either invocation (the embedding is a
pure function, mirroring that the code mutates neither its input lists nor
any state shared across calls). -/
theorem score_deterministic (cfg : Config) (e1 e2 : Option String)
    (golds1 golds2 predictions1 predictions2 : List String)
    (hg : golds1 = golds2) (hp : predictions1 = predictions2) :
    Except.map ScoreResult.score (sample_level_fn cfg e1 golds1 predictions1)
      = Except.map ScoreResult.score (sample_level_fn cfg e2 golds2 predictions2) := by
  subst hg
  subst hp
  have key : ∀ e : Option String,
      Except.map ScoreResult.score (sample_level_fn cfg e golds1 predictions1)
        = Except.map ScoreResult.score (sample_level_fn cfg none golds1 predictions1) := by
    intro e
    cases e with
    | none => rfl
    | some ex =>
      rw [render_effect]
      cases sample_level_fn cfg none golds1 predictions1 <;> rfl
  rw [key e1, key e2]

/-- Witness for C8: two concrete invocations on equal inputs, one with an
aborted rendering step and one without, return the same scalar. -/
theorem score_deterministic_witness :
    Except.map ScoreResult.score (sample_level_fn cfgS (some "boom") ["2"] ["2"])
      = Except.map ScoreResult.score (sample_level_fn cfgS none ["2"] ["2"]) :=
  score_deterministic cfgS (some "boom") none ["2"] ["2"] ["2"] ["2"] rfl rfl

/-- Claim C9: on an empty prediction list (with every gold extracting),
the aggregation function is applied to the empty per-prediction score
list; under the default `max` aggregation this raises (Python `max` of an
empty list) instead of returning a scalar. -/
theorem score_empty_predictions_aggregation_error (cfg : Config)
    (renderExn : Option String) (golds : List String)
    (hge : ∀ g ∈ golds, cfg.extractGold g ≠ [])
    (hagg : cfg.aggregation = pyMax) :
    sample_level_fn cfg renderExn golds [] = .error .aggregationError := by
  have hcond : ((golds.map cfg.extractGold).any fun g => g.isEmpty) = false := by
    rw [List.any_eq_false]
    intro x hx
    rw [List.mem_map] at hx
    obtain ⟨g, hg, rfl⟩ := hx
    simpa using hge g hg
  simp only [sample_level_fn, get_str_preds_with_timeout]
  simp [hcond, hagg, pyMax]

/-- Witness for C9: the concrete default-configuration run on gold `"2"`
and no predictions fails with the aggregation error. -/
theorem score_empty_predictions_aggregation_error_witness :
    sample_level_fn cfgS none ["2"] [] = .error .aggregationError :=
  score_empty_predictions_aggregation_error cfgS none ["2"] (by decide) rfl

/-- Claim C10: every exception aborting the diagnostic stringification
step — not only timeouts — is absorbed: the run differs from the
successful-rendering run only in having the empty diagnostic component and
one extra logged warning; no such exception propagates (the error cases
pass through unchanged) and the scalar score is unaffected. -/
theorem diag_exception_absorbed (cfg : Config) (e : String)
    (golds predictions : List String) :
    sample_level_fn cfg (some e) golds predictions
      = Except.map (fun r => ⟨r.score, StrPreds.empty, r.warnings ++ [renderWarning]⟩)
          (sample_level_fn cfg none golds predictions) :=
  render_effect cfg e golds predictions

end MathEvaluator
